import Mathlib

/-
Verification of the gear runner `run.py` of the bids-fmriprep repository.

The script is a linear orchestration: initialize (load manifest, read the
environment snapshot from /tmp/gear_environ.json, create the gear_dict
scratch state), create_command (build the four-token working command and
delegate to the argument utilities), set_up_data (download and validate the
BIDS dataset), execute (spawn the subprocess, archive output, aggregate
errors and exit).  External collaborators (utils.args, BIDS download and
validation, zip_output, the subprocess itself) are modelled as oracles:
`Except` values supplied as parameters, standing for the value the
collaborator returned or the exception it raised.  Observable behaviour
(log statements, the sp.run call, the zip_output call, sys.exit) is
recorded as an event trace.
-/

deriving instance DecidableEq for Except

namespace BidsGear

/-- A caught Python exception, reduced to the two projections run.py uses:
the class name (what line 145 extracts from str applied to type of err) and
the message (str of err). -/
structure Err where
  typeName : String
  msg : String
  deriving DecidableEq

/-- The outcome of subprocess.run as consumed by run.py: the return code
and the captured standard-error text. -/
structure RunResult where
  returncode : Int
  stderr : String
  deriving DecidableEq

/-- The two configuration keys run.py reads; `none` models a configuration
dictionary that lacks the key, so that reading it raises KeyError. -/
structure Config where
  gear_dry_run : Option Bool
  gear_save_all_output : Option Bool
  deriving DecidableEq

/-- The fields of the platform context object that run.py reads. -/
structure Context where
  work_dir : String
  output_dir : String
  config : Config
  deriving DecidableEq

/-- The gear_dict scratch state: created in initialize, mutated by the
later stages.  `command` and `resolved` are `none` while the corresponding
key has not been stored yet. -/
structure GearDict where
  bids_path : String
  errors : List Err
  environ : List (String × String)
  command : Option (List String)
  resolved : Option (List (String × String))
  deriving DecidableEq

/-- Observable actions of the script.  Each log constructor corresponds to
exactly one logging statement of run.py and carries the data that statement
formats; `spawned` records the sp.run call with its command, environment
and which of stderr/stdout are piped; `archived` records the zip_output
call. -/
inductive Event where
  | logConfig : Event
  | logDebugEnviron : List (String × String) → Event
  | logCommand : List String → Event
  | spawned : List String → List (String × String) → Bool → Bool → Event
  | logReturnCode : Int → Event
  | logSuccess : Event
  | logStderr : String → Event
  | logFailed : Event
  | logCriticalErr : Err → Event
  | logExceptionMsg : String → Event
  | logErrorSummary : String → Event
  | logDone : Event
  | archived : Event
  deriving DecidableEq

/-- Python os.path.join for a relative second component, as used at
line 31 of run.py. -/
def os_path_join (a b : String) : String :=
  if a = "" then b
  else if a.endsWith "/" then a ++ b else a ++ "/" ++ b

/-- The KeyError a Python dict raises on a missing key. -/
def key_error (k : String) : Err :=
  { typeName := "KeyError", msg := k }

/-- The UnboundLocalError raised at line 140 of run.py when the local
variable result was never assigned in the try block. -/
def unbound_local_error : Err :=
  { typeName := "UnboundLocalError",
    msg := "local variable result referenced before assignment" }

/-- The synthetic stderr text of the dry-run branch (line 118). -/
def dry_run_stderr : String :=
  "gear-dry-run is set:  Did NOT run gear code."

/-- The consolidated error message built at lines 143-145: header line
then one indented line per error with its type name and message. -/
def err_summary (errors : List Err) : String :=
  errors.foldl
    (fun msg err => msg ++ "  " ++ err.typeName ++ ": " ++ err.msg ++ "\n")
    "Previous errors:\n"

/-- The space-joined key=value rendering of the environment logged at
debug level (lines 43-46). -/
def environ_kv (environ : List (String × String)) : String :=
  environ.foldl (fun kv p => kv ++ p.1 ++ "=" ++ p.2 ++ " ") ""

/-- Result of the initialize stage: the events it logged and either the
created scratch state or the exception that propagated (manifest load or
the read of /tmp/gear_environ.json, neither of which is caught). -/
structure InitResult where
  events : List Event
  outcome : Except Err GearDict
  deriving DecidableEq

/-- The scratch state as created at lines 28-40: the BIDS path
work_dir/bids, an empty error list, the parsed environment snapshot, and
no command or resolved-argument key yet. -/
def init_gd (ctx : Context) (environ : List (String × String)) : GearDict :=
  { bids_path := os_path_join ctx.work_dir "bids"
    errors := []
    environ := environ
    command := none
    resolved := none }

/-- The initialize function of run.py (lines 18-48).  `manifest_res` is
the oracle for load_manifest_json, `env_file_res` the oracle for opening
and JSON-parsing /tmp/gear_environ.json.  The scratch state gets the BIDS
path work_dir/bids and an empty error list; a failure reading the
environment file propagates uncaught. -/
def initialize_gear (ctx : Context) (manifest_res : Except Err Unit)
    (env_file_res : Except Err (List (String × String))) : InitResult :=
  match manifest_res with
  | Except.error e => ⟨[], Except.error e⟩
  | Except.ok _ =>
    match env_file_res with
    | Except.error e => ⟨[Event.logConfig], Except.error e⟩
    | Except.ok environ =>
      ⟨[Event.logConfig, Event.logDebugEnviron environ],
       Except.ok (init_gd ctx environ)⟩

/-- Result of one of the two middle stages: logged events and the scratch
state after the stage. -/
structure StageResult where
  events : List Event
  gd : GearDict
  deriving DecidableEq

/-- The except-branch shared by create_command and set_up_data: append the
exception to the error list, log it critically, log the stage message with
traceback, return normally. -/
def stage_catch (gd : GearDict) (e : Err) (msg : String) : StageResult :=
  ⟨[Event.logCriticalErr e, Event.logExceptionMsg msg],
   { gd with errors := gd.errors ++ [e] }⟩

/-- The four-token working command assembled at lines 57-63:
executable, BIDS path, output directory, processing level. -/
def working_command (ctx : Context) (gd : GearDict) : List String :=
  ["fmriprep", gd.bids_path, ctx.output_dir, "participant"]

/-- The create_command function of run.py (lines 51-83).  The working
command is stored in the scratch state, then the three utils.args
operations run in order; any exception is caught and recorded.
`inputs_res` is the oracle for args.get_inputs_and_args, which on success
stores the resolved key-value argument dictionary in scratch state;
`validate_res` for args.validate; `build_res` for args.build_command.
Modelled from the spec: utils.args is not part of the orchestration file;
per the spec, build_command returns the definitive ordered argument list,
replacing the working copy in scratch state. -/
def create_command (ctx : Context) (gd : GearDict)
    (inputs_res : Except Err (List (String × String)))
    (validate_res : Except Err Unit)
    (build_res : Except Err (List String)) : StageResult :=
  let gd1 := { gd with command := some (working_command ctx gd) }
  match inputs_res with
  | Except.error e =>
      stage_catch gd1 e "Error in creating and validating command."
  | Except.ok resolved =>
    let gd2 := { gd1 with resolved := some resolved }
    match validate_res with
    | Except.error e =>
        stage_catch gd2 e "Error in creating and validating command."
    | Except.ok _ =>
      match build_res with
      | Except.error e =>
          stage_catch gd2 e "Error in creating and validating command."
      | Except.ok final => ⟨[], { gd2 with command := some final }⟩

/-- The set_up_data function of run.py (lines 86-100): download then
validate the BIDS data, catching and recording any exception. -/
def set_up_data (gd : GearDict) (download_res : Except Err Unit)
    (validate_bids_res : Except Err Unit) : StageResult :=
  match download_res with
  | Except.error e =>
      stage_catch gd e "Error in BIDS download and validation."
  | Except.ok _ =>
    match validate_bids_res with
    | Except.error e =>
        stage_catch gd e "Error in BIDS download and validation."
    | Except.ok _ => ⟨[], gd⟩

/-- Outcome of the execute stage: os.sys.exit called with a code, or an
exception escaping the finally block. -/
inductive ExecTermination where
  | exited : Int → ExecTermination
  | uncaught : Err → ExecTermination
  deriving DecidableEq

/-- Result of the execute stage: events, final scratch state,
termination. -/
structure ExecResult where
  events : List Event
  gd : GearDict
  termination : ExecTermination
  deriving DecidableEq

/-- The log statements at lines 120-127: the return code, then either the
success message or the captured stderr and the failure message. -/
def result_logs (r : RunResult) : List Event :=
  Event.logReturnCode r.returncode ::
    (if r.returncode = 0 then [Event.logSuccess]
     else [Event.logStderr r.stderr, Event.logFailed])

/-- The try block of execute (lines 104-127): events, the value of the
local variable result (none when it was never assigned), and the caught
exception if one was raised.  Reading a missing command key or a missing
gear-dry-run key raises KeyError inside the try, which the except clause
catches; `spawn_res` is the oracle for sp.run, recorded as a `spawned`
event with the environment substituted and only stderr piped. -/
def exec_try_phase (cfg : Config) (gd : GearDict)
    (spawn_res : Except Err RunResult) :
    List Event × Option RunResult × Option Err :=
  match gd.command with
  | none => ([], none, some (key_error "command"))
  | some cmd =>
    match cfg.gear_dry_run with
    | none => ([Event.logCommand cmd], none, some (key_error "gear-dry-run"))
    | some dry =>
      if dry then
        let r : RunResult := ⟨1, dry_run_stderr⟩
        (Event.logCommand cmd :: result_logs r, some r, none)
      else
        match spawn_res with
        | Except.error e =>
          ([Event.logCommand cmd, Event.spawned cmd gd.environ true false],
           none, some e)
        | Except.ok r =>
          (Event.logCommand cmd :: Event.spawned cmd gd.environ true false ::
             result_logs r, some r, none)

/-- Effect of the except clause of execute (lines 129-132) on the scratch
state: append the caught exception, if any, to the error list. -/
def exec_caught_gd (gd : GearDict) (exc : Option Err) : GearDict :=
  match exc with
  | none => gd
  | some e => { gd with errors := gd.errors ++ [e] }

/-- Effect of the except clause of execute (lines 129-132) on the trace:
log the caught exception critically and log the stage message with
traceback. -/
def exec_caught_events (evs : List Event) (exc : Option Err) : List Event :=
  match exc with
  | none => evs
  | some e => evs ++ [Event.logCriticalErr e,
      Event.logExceptionMsg "Unable to execute command."]

/-- The finally block of execute (lines 134-150): the unguarded read of
gear-save-all-output (a missing key raises KeyError out of the function),
the zip_output call when the flag is true, the read of result.returncode
(UnboundLocalError when the try block raised before assigning result), the
error aggregation that forces the exit code to 1 and logs the consolidated
summary when the error list is non-empty, and os.sys.exit. -/
def exec_finally (cfg : Config) (evs1 : List Event) (gd1 : GearDict)
    (result : Option RunResult) : ExecResult :=
  match cfg.gear_save_all_output with
  | none =>
      ⟨evs1, gd1, ExecTermination.uncaught (key_error "gear-save-all-output")⟩
  | some save =>
    let evs2 := evs1 ++ (if save then [Event.archived] else [])
    match result with
    | none => ⟨evs2, gd1, ExecTermination.uncaught unbound_local_error⟩
    | some r =>
      if gd1.errors.length > 0 then
        ⟨evs2 ++ [Event.logErrorSummary (err_summary gd1.errors),
                  Event.logDone],
         gd1, ExecTermination.exited 1⟩
      else
        ⟨evs2 ++ [Event.logDone], gd1, ExecTermination.exited r.returncode⟩

/-- The execute function of run.py (lines 103-150): the try block, the
except clause, then the finally block. -/
def execute (cfg : Config) (gd : GearDict)
    (spawn_res : Except Err RunResult) : ExecResult :=
  let p := exec_try_phase cfg gd spawn_res
  exec_finally cfg (exec_caught_events p.1 p.2.2) (exec_caught_gd gd p.2.2)
    p.2.1

/-- All the oracles of one run: the value returned or the exception raised
by each external collaborator, in program order. -/
structure Oracles where
  manifest_res : Except Err Unit
  env_file_res : Except Err (List (String × String))
  inputs_res : Except Err (List (String × String))
  validate_res : Except Err Unit
  build_res : Except Err (List String)
  download_res : Except Err Unit
  validate_bids_res : Except Err Unit
  spawn_res : Except Err RunResult
  deriving DecidableEq

/-- How a whole run ends: aborted by an uncaught exception during
initialization, an exception escaping execute's finally block, or
os.sys.exit with a code. -/
inductive RunTermination where
  | aborted_init : Err → RunTermination
  | uncaught : Err → RunTermination
  | exited : Int → RunTermination
  deriving DecidableEq

/-- The trace of a whole run: every observable event in order, and the
termination. -/
structure RunTrace where
  events : List Event
  termination : RunTermination
  deriving DecidableEq

/-- The main block of run.py (lines 153-163): initialize, create_command,
set_up_data, execute, strictly in sequence over the shared scratch
state. -/
def main_run (ctx : Context) (o : Oracles) : RunTrace :=
  match initialize_gear ctx o.manifest_res o.env_file_res with
  | ⟨evs, Except.error e⟩ => ⟨evs, RunTermination.aborted_init e⟩
  | ⟨evs, Except.ok gd⟩ =>
    let s1 := create_command ctx gd o.inputs_res o.validate_res o.build_res
    let s2 := set_up_data s1.gd o.download_res o.validate_bids_res
    let ex := execute ctx.config s2.gd o.spawn_res
    ⟨evs ++ s1.events ++ s2.events ++ ex.events,
     match ex.termination with
     | ExecTermination.uncaught e => RunTermination.uncaught e
     | ExecTermination.exited c => RunTermination.exited c⟩

/-- Number of zip_output calls in a trace. -/
def count_archived : List Event → Nat
  | [] => 0
  | Event.archived :: rest => count_archived rest + 1
  | _ :: rest => count_archived rest

/-- Number of consolidated error-summary log messages in a trace. -/
def count_summary : List Event → Nat
  | [] => 0
  | Event.logErrorSummary _ :: rest => count_summary rest + 1
  | _ :: rest => count_summary rest

lemma count_summary_append (a b : List Event) :
    count_summary (a ++ b) = count_summary a + count_summary b := by
  induction a with
  | nil => simp [count_summary]
  | cons e rest ih =>
    cases e <;> (simp [count_summary, ih]; try omega)

lemma count_archived_append (a b : List Event) :
    count_archived (a ++ b) = count_archived a + count_archived b := by
  induction a with
  | nil => simp [count_archived]
  | cons e rest ih =>
    cases e <;> (simp [count_archived, ih]; try omega)

lemma count_summary_result_logs (r : RunResult) :
    count_summary (result_logs r) = 0 := by
  by_cases h : r.returncode = 0 <;> simp [result_logs, count_summary, h]

lemma count_archived_result_logs (r : RunResult) :
    count_archived (result_logs r) = 0 := by
  by_cases h : r.returncode = 0 <;> simp [result_logs, count_archived, h]

lemma count_summary_try (cfg : Config) (gd : GearDict)
    (s : Except Err RunResult) :
    count_summary (exec_try_phase cfg gd s).1 = 0 := by
  unfold exec_try_phase
  cases gd.command with
  | none => simp [count_summary]
  | some cmd =>
    cases cfg.gear_dry_run with
    | none => simp [count_summary]
    | some dry =>
      cases dry with
      | true => simp [count_summary, result_logs]
      | false =>
        cases s with
        | error e => simp [count_summary]
        | ok r =>
          by_cases h : r.returncode = 0 <;>
            simp [count_summary, result_logs, h]

lemma count_archived_try (cfg : Config) (gd : GearDict)
    (s : Except Err RunResult) :
    count_archived (exec_try_phase cfg gd s).1 = 0 := by
  unfold exec_try_phase
  cases gd.command with
  | none => simp [count_archived]
  | some cmd =>
    cases cfg.gear_dry_run with
    | none => simp [count_archived]
    | some dry =>
      cases dry with
      | true => simp [count_archived, result_logs]
      | false =>
        cases s with
        | error e => simp [count_archived]
        | ok r =>
          by_cases h : r.returncode = 0 <;>
            simp [count_archived, result_logs, h]

lemma count_summary_caught (evs : List Event) (exc : Option Err) :
    count_summary (exec_caught_events evs exc) = count_summary evs := by
  cases exc <;> simp [exec_caught_events, count_summary_append, count_summary]

lemma count_archived_caught (evs : List Event) (exc : Option Err) :
    count_archived (exec_caught_events evs exc) = count_archived evs := by
  cases exc <;> simp [exec_caught_events, count_archived_append, count_archived]

lemma exec_finally_gd (cfg : Config) (evs1 : List Event) (gd1 : GearDict)
    (result : Option RunResult) :
    (exec_finally cfg evs1 gd1 result).gd = gd1 := by
  unfold exec_finally
  cases cfg.gear_save_all_output with
  | none => rfl
  | some save =>
    cases result with
    | none => rfl
    | some r => by_cases h : gd1.errors.length > 0 <;> simp [h]

lemma execute_gd (cfg : Config) (gd : GearDict) (s : Except Err RunResult) :
    (execute cfg gd s).gd =
      exec_caught_gd gd (exec_try_phase cfg gd s).2.2 := by
  unfold execute
  exact exec_finally_gd ..

lemma execute_def (cfg : Config) (gd : GearDict) (s : Except Err RunResult) :
    execute cfg gd s =
      exec_finally cfg
        (exec_caught_events (exec_try_phase cfg gd s).1
          (exec_try_phase cfg gd s).2.2)
        (exec_caught_gd gd (exec_try_phase cfg gd s).2.2)
        (exec_try_phase cfg gd s).2.1 := rfl

lemma count_archived_finally_save (cfg : Config) (evs1 : List Event)
    (gd1 : GearDict) (result : Option RunResult)
    (hs : cfg.gear_save_all_output = some true) :
    count_archived (exec_finally cfg evs1 gd1 result).events =
      count_archived evs1 + 1 := by
  unfold exec_finally
  rw [hs]
  cases result with
  | none => simp [count_archived_append, count_archived]
  | some r =>
    by_cases hl : gd1.errors.length > 0 <;>
      simp [hl, count_archived_append, count_archived]

lemma logDone_not_mem_try (cfg : Config) (gd : GearDict)
    (s : Except Err RunResult) :
    Event.logDone ∉ (exec_try_phase cfg gd s).1 := by
  unfold exec_try_phase
  cases gd.command with
  | none => simp
  | some cmd =>
    cases cfg.gear_dry_run with
    | none => simp
    | some dry =>
      cases dry with
      | true => simp [result_logs]
      | false =>
        cases s with
        | error e => simp
        | ok r =>
          by_cases h : r.returncode = 0 <;> simp [result_logs, h]

lemma logDone_not_mem_caught (evs : List Event) (exc : Option Err)
    (h : Event.logDone ∉ evs) :
    Event.logDone ∉ exec_caught_events evs exc := by
  cases exc <;> simp [exec_caught_events, h]

/-- C3 failing input: a spawn attempt that raises FileNotFoundError
because the executable is absent. -/
def file_not_found : Err :=
  { typeName := "FileNotFoundError",
    msg := "No such file or directory: fmriprep" }

/-- C3 failing input: the scratch state of a run that reached execute with
no prior errors and the built command in place. -/
def c3_gd : GearDict :=
  { bids_path := "/flywheel/v0/work/bids"
    errors := []
    environ := [("PATH", "/usr/bin")]
    command := some ["fmriprep", "/flywheel/v0/work/bids",
      "/flywheel/v0/output", "participant"]
    resolved := some [] }

/-- C3: evaluation of execute at the failing input.  When spawning raises,
the exception is indeed caught, appended to the error list and logged, and
the archiver does run; but the finally block then reads result.returncode
with the local result never assigned, so an UnboundLocalError escapes: the
aggregate exit-code computation and sys.exit are never reached, the run
does not terminate with the computed code, contradicting the claim that
finalization executes to completion on this path. -/
theorem C3_spawn_exception_skips_exit_code :
    (execute ⟨some false, some true⟩ c3_gd
        (Except.error file_not_found)).gd.errors = [file_not_found] ∧
      Event.archived ∈ (execute ⟨some false, some true⟩ c3_gd
        (Except.error file_not_found)).events ∧
      Event.logCriticalErr file_not_found ∈
        (execute ⟨some false, some true⟩ c3_gd
          (Except.error file_not_found)).events ∧
      (execute ⟨some false, some true⟩ c3_gd
          (Except.error file_not_found)).termination =
        ExecTermination.uncaught unbound_local_error ∧
      Event.logDone ∉ (execute ⟨some false, some true⟩ c3_gd
        (Except.error file_not_found)).events := by
  decide

/-- C5: for every run reaching execute with an empty error list, a stored
command and a subprocess that exits with code n, the finally block uses n
verbatim as the argument of os.sys.exit. -/
theorem C5_empty_errors_exit_code_verbatim (save : Bool) (bp : String)
    (env : List (String × String)) (cmd : List String)
    (res : Option (List (String × String))) (n : Int) (st : String) :
    (execute ⟨some false, some save⟩ ⟨bp, [], env, some cmd, res⟩
        (Except.ok ⟨n, st⟩)).termination = ExecTermination.exited n := rfl

/-- C6: when reading or parsing /tmp/gear_environ.json raises, the run
aborts with that exception after only the configuration log line: no
command is built, no subprocess spawned, and the finalization logic of
execute never runs. -/
theorem C6_env_file_error_aborts_run (work out : String) (cfg : Config)
    (e : Err) (i : Except Err (List (String × String)))
    (v : Except Err Unit) (b : Except Err (List String))
    (d vb : Except Err Unit) (s : Except Err RunResult) :
    main_run ⟨work, out, cfg⟩
        ⟨Except.ok (), Except.error e, i, v, b, d, vb, s⟩ =
      ⟨[Event.logConfig], RunTermination.aborted_init e⟩ := rfl

/-- C7: whenever gear-save-all-output is true, zip_output is called
exactly once by execute, on every path: subprocess success, non-zero
return, dry run, spawn exception, and even when a KeyError or the unbound
result escapes later in the finally block. -/
theorem C7_archiver_invoked_exactly_once (dry : Option Bool)
    (gd : GearDict) (s : Except Err RunResult) :
    count_archived (execute ⟨dry, some true⟩ gd s).events = 1 := by
  rw [execute_def, count_archived_finally_save _ _ _ _ rfl,
    count_archived_caught, count_archived_try]

/-- C9: the error log is created empty by initialize and is append-only:
each of create_command, set_up_data and execute either leaves it unchanged
or appends exactly the one exception it caught to its end; it is never
cleared, truncated or reordered. -/
theorem C9_error_log_append_only :
    (∀ ctx envMap, ∃ gd : GearDict,
        (initialize_gear ctx (Except.ok ()) (Except.ok envMap)).outcome =
            Except.ok gd ∧ gd.errors = []) ∧
      (∀ ctx gd i v b,
        (create_command ctx gd i v b).gd.errors = gd.errors ∨
          ∃ e, (create_command ctx gd i v b).gd.errors = gd.errors ++ [e]) ∧
      (∀ gd d vb,
        (set_up_data gd d vb).gd.errors = gd.errors ∨
          ∃ e, (set_up_data gd d vb).gd.errors = gd.errors ++ [e]) ∧
      (∀ cfg gd s,
        (execute cfg gd s).gd.errors = gd.errors ∨
          ∃ e, (execute cfg gd s).gd.errors = gd.errors ++ [e]) := by
  refine ⟨?_, ?_, ?_, ?_⟩
  · intro ctx envMap
    exact ⟨_, rfl, rfl⟩
  · intro ctx gd i v b
    cases i with
    | error e => exact Or.inr ⟨e, rfl⟩
    | ok resolved =>
      cases v with
      | error e => exact Or.inr ⟨e, rfl⟩
      | ok u =>
        cases b with
        | error e => exact Or.inr ⟨e, rfl⟩
        | ok final => exact Or.inl rfl
  · intro gd d vb
    cases d with
    | error e => exact Or.inr ⟨e, rfl⟩
    | ok u =>
      cases vb with
      | error e => exact Or.inr ⟨e, rfl⟩
      | ok u2 => exact Or.inl rfl
  · intro cfg gd s
    rw [execute_gd]
    cases h : (exec_try_phase cfg gd s).2.2 with
    | none => exact Or.inl rfl
    | some e => exact Or.inr ⟨e, rfl⟩

lemma count_summary_ite_archived (b : Bool) :
    count_summary (if b then [Event.archived] else []) = 0 := by
  cases b <;> simp [count_summary]

lemma exec_finally_exit_nonempty (cfg : Config) (evs1 : List Event)
    (gd1 : GearDict) (result : Option RunResult) (c : Int)
    (hexit : (exec_finally cfg evs1 gd1 result).termination =
      ExecTermination.exited c)
    (herr : gd1.errors ≠ []) :
    c = 1 ∧
      count_summary (exec_finally cfg evs1 gd1 result).events =
        count_summary evs1 + 1 ∧
      Event.logErrorSummary (err_summary gd1.errors) ∈
        (exec_finally cfg evs1 gd1 result).events := by
  have hl : gd1.errors.length > 0 := List.length_pos.mpr herr
  cases hs : cfg.gear_save_all_output with
  | none =>
    unfold exec_finally at hexit
    rw [hs] at hexit
    simp at hexit
  | some save =>
    unfold exec_finally at hexit ⊢
    rw [hs] at hexit ⊢
    cases result with
    | none => simp at hexit
    | some r =>
      dsimp only at hexit ⊢
      rw [if_pos hl] at hexit ⊢
      refine ⟨?_, ?_, ?_⟩
      · dsimp only at hexit
        injection hexit with h
        omega
      · dsimp only
        rw [List.append_assoc, count_summary_append, count_summary_append,
          count_summary_ite_archived]
        simp [count_summary]
      · simp

/-- C1: whenever the finalization logic of execute reaches os.sys.exit
while the accumulated error list is non-empty, the exit code it passes is
exactly 1 no matter what the subprocess returned, and the trace holds
exactly one consolidated summary message, the one listing every recorded
error with its type name and message. -/
theorem C1_nonempty_errors_force_exit_one (cfg : Config) (gd : GearDict)
    (s : Except Err RunResult) (c : Int)
    (hexit : (execute cfg gd s).termination = ExecTermination.exited c)
    (herr : (execute cfg gd s).gd.errors ≠ []) :
    c = 1 ∧ count_summary (execute cfg gd s).events = 1 ∧
      Event.logErrorSummary (err_summary ((execute cfg gd s).gd.errors)) ∈
        (execute cfg gd s).events := by
  rw [execute_def] at hexit herr ⊢
  rw [exec_finally_gd] at herr ⊢
  obtain ⟨h1, h2, h3⟩ := exec_finally_exit_nonempty _ _ _ _ _ hexit herr
  refine ⟨h1, ?_, h3⟩
  rw [h2, count_summary_caught, count_summary_try]

/-- C1 witness input: a scratch state carrying one recorded error from an
earlier stage, with a successfully built command. -/
def c1_gd : GearDict :=
  { bids_path := "/w/bids"
    errors := [{ typeName := "ValueError", msg := "bad args" }]
    environ := []
    command := some ["fmriprep", "/w/bids", "/out", "participant"]
    resolved := none }

/-- C1 witness: at a concrete run whose subprocess returned 0 but whose
error list holds one entry, the theorem applies and the exit code is 1
with one summary message. -/
theorem C1_nonempty_errors_witness :
    (1 : Int) = 1 ∧
      count_summary (execute ⟨some false, some false⟩ c1_gd
        (Except.ok ⟨0, ""⟩)).events = 1 ∧
      Event.logErrorSummary
          (err_summary ((execute ⟨some false, some false⟩ c1_gd
            (Except.ok ⟨0, ""⟩)).gd.errors)) ∈
        (execute ⟨some false, some false⟩ c1_gd (Except.ok ⟨0, ""⟩)).events :=
  C1_nonempty_errors_force_exit_one ⟨some false, some false⟩ c1_gd
    (Except.ok ⟨0, ""⟩) 1 (by decide) (by decide)

lemma exec_caught_events_prefix (evs : List Event) (exc : Option Err) :
    ∃ tail, exec_caught_events evs exc = evs ++ tail := by
  cases exc with
  | none => exact ⟨[], (List.append_nil _).symm⟩
  | some e => exact ⟨_, rfl⟩

lemma exec_finally_events_prefix (cfg : Config) (evs1 : List Event)
    (gd1 : GearDict) (result : Option RunResult) :
    ∃ tail, (exec_finally cfg evs1 gd1 result).events = evs1 ++ tail := by
  unfold exec_finally
  cases cfg.gear_save_all_output with
  | none => exact ⟨[], (List.append_nil _).symm⟩
  | some save =>
    cases result with
    | none => exact ⟨_, rfl⟩
    | some r =>
      dsimp only
      split
      · exact ⟨_, by rw [List.append_assoc]⟩
      · exact ⟨_, by rw [List.append_assoc]⟩

lemma mem_execute_of_mem_try (cfg : Config) (gd : GearDict)
    (s : Except Err RunResult) (ev : Event)
    (h : ev ∈ (exec_try_phase cfg gd s).1) :
    ev ∈ (execute cfg gd s).events := by
  rw [execute_def]
  obtain ⟨t, ht⟩ := exec_finally_events_prefix cfg
    (exec_caught_events (exec_try_phase cfg gd s).1
      (exec_try_phase cfg gd s).2.2)
    (exec_caught_gd gd (exec_try_phase cfg gd s).2.2)
    (exec_try_phase cfg gd s).2.1
  rw [ht]
  obtain ⟨t0, ht0⟩ := exec_caught_events_prefix (exec_try_phase cfg gd s).1
    (exec_try_phase cfg gd s).2.2
  rw [ht0, List.append_assoc]
  exact List.mem_append_left _ h

lemma spawned_mem_try_not_dry (cfg : Config) (gd : GearDict)
    (cmd : List String) (s : Except Err RunResult)
    (hcmd : gd.command = some cmd) (hdry : cfg.gear_dry_run = some false) :
    Event.spawned cmd gd.environ true false ∈ (exec_try_phase cfg gd s).1 := by
  unfold exec_try_phase
  rw [hcmd, hdry]
  cases s <;> simp

lemma logCommand_mem_try (cfg : Config) (gd : GearDict) (cmd : List String)
    (s : Except Err RunResult) (hcmd : gd.command = some cmd) :
    Event.logCommand cmd ∈ (exec_try_phase cfg gd s).1 := by
  unfold exec_try_phase
  rw [hcmd]
  cases cfg.gear_dry_run with
  | none => simp
  | some dry =>
    cases dry with
    | true => simp
    | false => cases s <;> simp

lemma dry_stderr_mem_try (cfg : Config) (gd : GearDict) (cmd : List String)
    (s : Except Err RunResult) (hcmd : gd.command = some cmd)
    (hdry : cfg.gear_dry_run = some true) :
    Event.logStderr dry_run_stderr ∈ (exec_try_phase cfg gd s).1 := by
  unfold exec_try_phase
  rw [hcmd, hdry]
  simp [result_logs]

lemma try_dry_no_spawned (cfg : Config) (gd : GearDict)
    (s : Except Err RunResult) (hdry : cfg.gear_dry_run = some true)
    (c : List String) (e : List (String × String)) (sp so : Bool) :
    Event.spawned c e sp so ∉ (exec_try_phase cfg gd s).1 := by
  unfold exec_try_phase
  cases gd.command with
  | none => simp
  | some cmd =>
    rw [hdry]
    simp [result_logs]

lemma caught_no_spawned (evs : List Event) (exc : Option Err)
    (c : List String) (e : List (String × String)) (sp so : Bool)
    (h : Event.spawned c e sp so ∉ evs) :
    Event.spawned c e sp so ∉ exec_caught_events evs exc := by
  cases exc <;> simp [exec_caught_events, h]

lemma exec_finally_no_new_spawned (cfg : Config) (evs1 : List Event)
    (gd1 : GearDict) (result : Option RunResult)
    (c : List String) (e : List (String × String)) (sp so : Bool)
    (h : Event.spawned c e sp so ∉ evs1) :
    Event.spawned c e sp so ∉ (exec_finally cfg evs1 gd1 result).events := by
  unfold exec_finally
  cases cfg.gear_save_all_output with
  | none => exact h
  | some save =>
    cases result with
    | none => cases save <;> simp [h]
    | some r =>
      cases save <;> dsimp only <;> split <;> simp [h]

lemma set_up_data_command (gd : GearDict) (d vb : Except Err Unit) :
    (set_up_data gd d vb).gd.command = gd.command := by
  cases d <;> cases vb <;> rfl

lemma set_up_data_environ (gd : GearDict) (d vb : Except Err Unit) :
    (set_up_data gd d vb).gd.environ = gd.environ := by
  cases d <;> cases vb <;> rfl

lemma create_command_environ (ctx : Context) (gd : GearDict)
    (i : Except Err (List (String × String))) (v : Except Err Unit)
    (b : Except Err (List String)) :
    (create_command ctx gd i v b).gd.environ = gd.environ := by
  cases i with
  | error e => rfl
  | ok resolved =>
    cases v with
    | error e => rfl
    | ok u =>
      cases b <;> rfl

lemma create_command_some (ctx : Context) (gd : GearDict)
    (i : Except Err (List (String × String))) (v : Except Err Unit)
    (b : Except Err (List String)) :
    ∃ cmd, (create_command ctx gd i v b).gd.command = some cmd := by
  cases i with
  | error e => exact ⟨_, rfl⟩
  | ok resolved =>
    cases v with
    | error e => exact ⟨_, rfl⟩
    | ok u =>
      cases b with
      | error e => exact ⟨_, rfl⟩
      | ok final => exact ⟨_, rfl⟩

lemma create_command_no_spawned (ctx : Context) (gd : GearDict)
    (i : Except Err (List (String × String))) (v : Except Err Unit)
    (b : Except Err (List String))
    (c : List String) (e : List (String × String)) (sp so : Bool) :
    Event.spawned c e sp so ∉ (create_command ctx gd i v b).events := by
  cases i with
  | error e2 => simp [create_command, stage_catch]
  | ok resolved =>
    cases v with
    | error e2 => simp [create_command, stage_catch]
    | ok u =>
      cases b <;> simp [create_command, stage_catch]

lemma set_up_data_no_spawned (gd : GearDict) (d vb : Except Err Unit)
    (c : List String) (e : List (String × String)) (sp so : Bool) :
    Event.spawned c e sp so ∉ (set_up_data gd d vb).events := by
  cases d <;> cases vb <;> simp [set_up_data, stage_catch]

lemma execute_no_spawned_when_dry (saveOpt : Option Bool) (gd : GearDict)
    (s : Except Err RunResult)
    (c : List String) (e : List (String × String)) (sp so : Bool) :
    Event.spawned c e sp so ∉
      (execute ⟨some true, saveOpt⟩ gd s).events := by
  rw [execute_def]
  exact exec_finally_no_new_spawned _ _ _ _ _ _ _ _
    (caught_no_spawned _ _ _ _ _ _ (try_dry_no_spawned _ _ _ rfl _ _ _ _))

lemma execute_dry_exit_one (saveb : Bool) (gd : GearDict)
    (cmd : List String) (s : Except Err RunResult)
    (hcmd : gd.command = some cmd) :
    (execute ⟨some true, some saveb⟩ gd s).termination =
      ExecTermination.exited 1 := by
  rw [execute_def]
  have htry : exec_try_phase ⟨some true, some saveb⟩ gd s =
      (Event.logCommand cmd :: result_logs ⟨1, dry_run_stderr⟩,
        some ⟨1, dry_run_stderr⟩, none) := by
    unfold exec_try_phase
    rw [hcmd]
    rfl
  rw [htry]
  unfold exec_finally
  dsimp only
  split
  · rfl
  · rfl

lemma main_run_ok_init (ctx : Context)
    (envMap : List (String × String))
    (i : Except Err (List (String × String))) (v : Except Err Unit)
    (b : Except Err (List String)) (d vb : Except Err Unit)
    (s : Except Err RunResult) :
    main_run ctx ⟨Except.ok (), Except.ok envMap, i, v, b, d, vb, s⟩ =
      ⟨[Event.logConfig, Event.logDebugEnviron envMap] ++
          (create_command ctx (init_gd ctx envMap) i v b).events ++
          (set_up_data (create_command ctx (init_gd ctx envMap) i v b).gd
            d vb).events ++
          (execute ctx.config
            (set_up_data (create_command ctx (init_gd ctx envMap) i v b).gd
              d vb).gd s).events,
        match (execute ctx.config
            (set_up_data (create_command ctx (init_gd ctx envMap) i v b).gd
              d vb).gd s).termination with
        | ExecTermination.uncaught e => RunTermination.uncaught e
        | ExecTermination.exited c => RunTermination.exited c⟩ := rfl

/-- C2: when the three argument operations succeed, the list returned by
the build-final-command operation becomes the command key of the scratch
state, and the command the executor logs and passes to sp.run in a
non-dry run is exactly that finalized list with the captured environment;
the utils.args behaviour is modelled from the spec. -/
theorem C2_final_command_logged_and_spawned (work out : String)
    (save : Bool) (envMap resolved : List (String × String))
    (final : List String) (d vb : Except Err Unit)
    (s : Except Err RunResult) :
    (∀ ctx gd, (create_command ctx gd (Except.ok resolved) (Except.ok ())
        (Except.ok final)).gd.command = some final) ∧
      Event.logCommand final ∈
        (main_run ⟨work, out, ⟨some false, some save⟩⟩
          ⟨Except.ok (), Except.ok envMap, Except.ok resolved, Except.ok (),
            Except.ok final, d, vb, s⟩).events ∧
      Event.spawned final envMap true false ∈
        (main_run ⟨work, out, ⟨some false, some save⟩⟩
          ⟨Except.ok (), Except.ok envMap, Except.ok resolved, Except.ok (),
            Except.ok final, d, vb, s⟩).events := by
  have hcmd : (set_up_data (create_command ⟨work, out, ⟨some false, some save⟩⟩
      (init_gd ⟨work, out, ⟨some false, some save⟩⟩ envMap)
      (Except.ok resolved) (Except.ok ()) (Except.ok final)).gd d vb).gd.command
      = some final := by
    rw [set_up_data_command]
    rfl
  have henv : (set_up_data (create_command ⟨work, out, ⟨some false, some save⟩⟩
      (init_gd ⟨work, out, ⟨some false, some save⟩⟩ envMap)
      (Except.ok resolved) (Except.ok ()) (Except.ok final)).gd d vb).gd.environ
      = envMap := by
    rw [set_up_data_environ, create_command_environ]
    rfl
  refine ⟨fun ctx gd => rfl, ?_, ?_⟩
  · rw [main_run_ok_init]
    refine List.mem_append_right _ ?_
    exact mem_execute_of_mem_try _ _ _ _ (logCommand_mem_try _ _ _ _ hcmd)
  · rw [main_run_ok_init]
    refine List.mem_append_right _ ?_
    have := spawned_mem_try_not_dry ⟨some false, some save⟩ _ final s hcmd rfl
    rw [henv] at this
    exact mem_execute_of_mem_try _ _ _ _ this

/-- C4: with gear-dry-run true, a run never calls sp.run on any path (no
spawned event anywhere in the trace), terminates through os.sys.exit with
code 1, and the synthetic failure-shaped result's fixed message is what
gets logged as stderr. -/
theorem C4_dry_run_never_spawns_exit_one (work out : String) (save : Bool)
    (envMap : List (String × String))
    (i : Except Err (List (String × String))) (v : Except Err Unit)
    (b : Except Err (List String)) (d vb : Except Err Unit)
    (s : Except Err RunResult) :
    (∀ c e sp so, Event.spawned c e sp so ∉
        (main_run ⟨work, out, ⟨some true, some save⟩⟩
          ⟨Except.ok (), Except.ok envMap, i, v, b, d, vb, s⟩).events) ∧
      (main_run ⟨work, out, ⟨some true, some save⟩⟩
          ⟨Except.ok (), Except.ok envMap, i, v, b, d, vb, s⟩).termination =
        RunTermination.exited 1 ∧
      Event.logStderr dry_run_stderr ∈
        (main_run ⟨work, out, ⟨some true, some save⟩⟩
          ⟨Except.ok (), Except.ok envMap, i, v, b, d, vb, s⟩).events := by
  obtain ⟨cmd, hcmd0⟩ := create_command_some
    ⟨work, out, ⟨some true, some save⟩⟩
    (init_gd ⟨work, out, ⟨some true, some save⟩⟩ envMap) i v b
  have hcmd : (set_up_data (create_command ⟨work, out, ⟨some true, some save⟩⟩
      (init_gd ⟨work, out, ⟨some true, some save⟩⟩ envMap) i v b).gd
      d vb).gd.command = some cmd := by
    rw [set_up_data_command]
    exact hcmd0
  refine ⟨?_, ?_, ?_⟩
  · intro c e sp so
    rw [main_run_ok_init]
    simp only [List.mem_append, not_or]
    refine ⟨⟨⟨?_, ?_⟩, ?_⟩, ?_⟩
    · simp
    · exact create_command_no_spawned _ _ _ _ _ _ _ _ _
    · exact set_up_data_no_spawned _ _ _ _ _ _ _
    · exact execute_no_spawned_when_dry _ _ _ _ _ _ _
  · rw [main_run_ok_init]
    rw [execute_dry_exit_one save _ cmd s hcmd]
  · rw [main_run_ok_init]
    refine List.mem_append_right _ ?_
    exact mem_execute_of_mem_try _ _ _ _
      (dry_stderr_mem_try _ _ cmd _ hcmd rfl)

/-- C8: initialize records the BIDS path work_dir/bids and the environment
snapshot in the scratch state; the working command recorded before any
delegated argument resolution is exactly the four tokens executable, BIDS
path, output directory, participant in that order (observable as the
command left in scratch state when the first delegated operation raises);
and a non-dry execute passes the stored command to sp.run with the
captured environment snapshot substituted and only stderr piped. -/
theorem C8_working_command_and_spawn_contract :
    (∀ ctx envMap, ∃ gd : GearDict,
        (initialize_gear ctx (Except.ok ()) (Except.ok envMap)).outcome =
            Except.ok gd ∧
          gd.bids_path = os_path_join ctx.work_dir "bids" ∧
          gd.environ = envMap ∧
          working_command ctx gd =
            ["fmriprep", os_path_join ctx.work_dir "bids", ctx.output_dir,
              "participant"]) ∧
      (∀ ctx gd e v b,
        (create_command ctx gd (Except.error e) v b).gd.command =
          some ["fmriprep", gd.bids_path, ctx.output_dir, "participant"]) ∧
      (∀ (save : Bool) (bp : String) (errs : List Err)
          (env : List (String × String)) (cmd : List String)
          (res : Option (List (String × String)))
          (s : Except Err RunResult),
        Event.spawned cmd env true false ∈
          (execute ⟨some false, some save⟩ ⟨bp, errs, env, some cmd, res⟩
            s).events) := by
  refine ⟨?_, ?_, ?_⟩
  · intro ctx envMap
    exact ⟨_, rfl, rfl, rfl, rfl⟩
  · intro ctx gd e v b
    rfl
  · intro save bp errs env cmd res s
    exact mem_execute_of_mem_try _ _ _ _
      (spawned_mem_try_not_dry ⟨some false, some save⟩
        ⟨bp, errs, env, some cmd, res⟩ cmd s rfl rfl)

/-- C10: when the configuration lacks the gear-save-all-output key, the
unguarded read at the top of the finally block raises KeyError, which
escapes execute: zip_output is never called, the consolidated error
summary is never logged, the done message is never logged and os.sys.exit
is never reached. -/
theorem C10_missing_save_key_escapes_finally (dry : Option Bool)
    (gd : GearDict) (s : Except Err RunResult) :
    (execute ⟨dry, none⟩ gd s).termination =
        ExecTermination.uncaught (key_error "gear-save-all-output") ∧
      count_archived (execute ⟨dry, none⟩ gd s).events = 0 ∧
      count_summary (execute ⟨dry, none⟩ gd s).events = 0 ∧
      Event.logDone ∉ (execute ⟨dry, none⟩ gd s).events := by
  have hev : (execute ⟨dry, none⟩ gd s).events =
      exec_caught_events (exec_try_phase ⟨dry, none⟩ gd s).1
        (exec_try_phase ⟨dry, none⟩ gd s).2.2 := rfl
  refine ⟨rfl, ?_, ?_, ?_⟩
  · rw [hev, count_archived_caught, count_archived_try]
  · rw [hev, count_summary_caught, count_summary_try]
  · rw [hev]
    exact logDone_not_mem_caught _ _ (logDone_not_mem_try _ _ _)

end BidsGear
